import Mathlib

/-!
Verification of the booking-management backend (`src/public/Booking.js`).

The file is a shallow embedding of the server: the Mongoose `Booking`
document becomes a Lean structure, the document store becomes a list of
documents, each Express route handler becomes a function from the request
data (plus explicit outcome flags for the external collaborators: the
document store and the mail transporter) to a response and a new store.
-/

namespace NovasAuto

/-- A persisted `Booking` document, following the schema declared at the
top of the server file (`bookingSchema`): `name`, `email`, `phone`,
`service`, `date` required strings, optional `message`, `status`
defaulting to `"Pending"`, `archived` defaulting to `false`, and the
store-managed identity and `createdAt` timestamp. -/
structure Booking where
  id : Nat
  name : String
  email : String
  phone : String
  service : String
  date : String
  message : Option String
  status : String
  archived : Bool
  createdAt : Nat
deriving Repr, DecidableEq

/-- The document store state: the collection of `Booking` documents in
insertion order. -/
abbrev Store := List Booking

/-- A JSON response: HTTP status code and the `message` field of the
body. -/
structure Response where
  code : Nat
  message : String
deriving Repr, DecidableEq

/-- The body of a `POST /api/bookings` request: each field is absent
(`none`) or a string. -/
structure CreateRequest where
  name : Option String
  email : Option String
  phone : Option String
  service : Option String
  date : Option String
  message : Option String
deriving Repr, DecidableEq

/-- JS truthiness of an optional string field: `undefined` and `""` are
falsy, every other string is truthy. -/
def present : Option String → Bool
  | none => false
  | some s => !s.isEmpty

/-- The validation guard of the create handler:
`if (!name || !email || !phone || !service || !date)`. -/
def requiredPresent (r : CreateRequest) : Bool :=
  present r.name && present r.email && present r.phone &&
    present r.service && present r.date

/-- The document built by `new Booking({name, email, phone, service,
date, message})`: schema defaults fill in `status := "Pending"` and
`archived := false`; the store assigns the identity and `createdAt`. -/
def mkBooking (newId now : Nat) (r : CreateRequest) : Booking :=
  { id := newId
    name := r.name.getD ""
    email := r.email.getD ""
    phone := r.phone.getD ""
    service := r.service.getD ""
    date := r.date.getD ""
    message := r.message
    status := "Pending"
    archived := false
    createdAt := now }

/-- Outcomes of the external collaborators during one create request:
whether `booking.save()` succeeds and whether each of the two
`transporter.sendMail` calls succeeds. -/
structure CreateEffects where
  saveOk : Bool
  customerMailOk : Bool
  adminMailOk : Bool
deriving Repr, DecidableEq

/-- Result of the create handler: the HTTP response and the store state
after the request. -/
structure CreateResult where
  response : Response
  store : Store
deriving Repr, DecidableEq

/-- The `POST /api/bookings` handler. Validation failure returns 400
before any store write. The whole body runs in one `try/catch`: a
failing `save` leaves the store unchanged and returns 500; a failing
`sendMail` happens after the save, so the document stays persisted but
the response is the generic 500 `"Server error"`. Only when the save and
both mail sends succeed does the handler answer
201 `"Booking successful"`. -/
def createBooking (eff : CreateEffects) (newId now : Nat)
    (r : CreateRequest) (s : Store) : CreateResult :=
  if !requiredPresent r then
    { response := ⟨400, "All required fields are required"⟩, store := s }
  else if !eff.saveOk then
    { response := ⟨500, "Server error"⟩, store := s }
  else
    let s' := s ++ [mkBooking newId now r]
    if !eff.customerMailOk then
      { response := ⟨500, "Server error"⟩, store := s' }
    else if !eff.adminMailOk then
      { response := ⟨500, "Server error"⟩, store := s' }
    else
      { response := ⟨201, "Booking successful"⟩, store := s' }

/-- The sort key of `GET /api/bookings`: `.sort({createdAt: -1})`,
creation time descending (newest first). -/
def newerFirst (a b : Booking) : Prop := b.createdAt ≤ a.createdAt

instance : DecidableRel newerFirst := fun a b =>
  inferInstanceAs (Decidable (b.createdAt ≤ a.createdAt))

instance : IsTotal Booking newerFirst :=
  ⟨fun a b => Nat.le_total b.createdAt a.createdAt⟩

instance : IsTrans Booking newerFirst :=
  ⟨fun _ _ _ hab hbc => Nat.le_trans hbc hab⟩

/-- The `GET /api/bookings` query:
`Booking.find({archived: false}).sort({createdAt: -1})`. -/
def listActive (s : Store) : List Booking :=
  List.insertionSort newerFirst (s.filter fun b => !b.archived)

/-- The `GET /api/bookings/:id` query: `Booking.findById(id)`, yielding
the document with the given identity or `none`. -/
def getById (s : Store) (i : Nat) : Option Booking :=
  s.find? fun b => b.id == i

/-- The `PUT /api/bookings/:id/complete` update:
`Booking.findByIdAndUpdate(id, {status: "Completed"})` — the document
with the given identity gets `status := "Completed"`, all other fields
and documents untouched. -/
def markCompleted (i : Nat) (s : Store) : Store :=
  s.map fun b => if b.id = i then { b with status := "Completed" } else b

/-- The `PUT /api/bookings/:id/archive` update:
`Booking.findByIdAndUpdate(id, {archived: true})`. -/
def archive (i : Nat) (s : Store) : Store :=
  s.map fun b => if b.id = i then { b with archived := true } else b

/-- The `DELETE /api/bookings/:id` operation:
`Booking.findByIdAndDelete(id)`. -/
def deleteBooking (i : Nat) (s : Store) : Store :=
  s.filter fun b => !(b.id == i)

/-- The payload of `GET /api/dashboard/stats`. -/
structure Stats where
  total : Nat
  pending : Nat
  completed : Nat
deriving Repr, DecidableEq

/-- The three `countDocuments` queries of the stats handler: all three
filters require `archived: false`. -/
def dashboardStats (s : Store) : Stats :=
  { total := s.countP fun b => !b.archived
    pending := s.countP fun b => b.status == "Pending" && !b.archived
    completed := s.countP fun b => b.status == "Completed" && !b.archived }

/-- One token of the `$regex` pattern used by the search route. The
handler passes the raw URL segment as the pattern, so metacharacters
keep their regex meaning; the fragment of PCRE the search terms can
exercise here is literal characters, the `.` wildcard, and backslash
escapes, which is what this embedding covers. -/
inductive RToken where
  | lit : Char → RToken
  | dot : RToken
deriving Repr, DecidableEq

/-- Regex pattern reading: `\c` escapes to the literal `c`, `.` is the
any-character wildcard, every other character stands for itself. -/
def tokenize : List Char → List RToken
  | [] => []
  | c :: rest =>
    if c = '\\' then
      match rest with
      | [] => []
      | d :: rest2 => .lit d :: tokenize rest2
    else if c = '.' then .dot :: tokenize rest
    else .lit c :: tokenize rest

/-- Anchored matching of a token list against a prefix of the subject,
case-insensitively (the `$options: "i"` flag): a literal compares equal
up to `Char.toLower`, the wildcard consumes any character. -/
def matchHere : List RToken → List Char → Bool
  | [], _ => true
  | _ :: _, [] => false
  | .lit c :: ts, x :: xs => (c.toLower == x.toLower) && matchHere ts xs
  | .dot :: ts, _ :: xs => matchHere ts xs

/-- Unanchored regex search: the pattern may match starting at any
position of the subject, as MongoDB `$regex` does without anchors. -/
def searchFrom (ts : List RToken) : List Char → Bool
  | [] => matchHere ts []
  | x :: xs => matchHere ts (x :: xs) || searchFrom ts xs

/-- `$regex: term, $options: "i"` applied to one string field. -/
def ciRegexTest (term subject : String) : Bool :=
  searchFrom (tokenize term.toList) subject.toList

/-- The `$or` clause of the search query: the term must match `name`,
`phone`, or `service`. -/
def matchesTerm (term : String) (b : Booking) : Bool :=
  ciRegexTest term b.name || ciRegexTest term b.phone ||
    ciRegexTest term b.service

/-- The `GET /api/bookings/search/:term` query:
`Booking.find({archived: false, $or: [...]})`. -/
def search (term : String) (s : Store) : List Booking :=
  s.filter fun b => !b.archived && matchesTerm term b

/-- Modelled from the spec: "returns active Bookings where name, phone,
or service case-insensitively contains term as a substring". This is
the spec's description of a field match, to be compared with the
regex-based `ciRegexTest` the code actually performs. -/
def ciContainsSubstring (term subject : String) : Prop :=
  (term.toList.map Char.toLower) <:+: (subject.toList.map Char.toLower)

instance (term subject : String) : Decidable (ciContainsSubstring term subject) :=
  List.decidableInfix _ _

/-- Modelled from the spec: the spec-side match predicate over a whole
booking — some of `name`, `phone`, `service` contains the term as a
case-insensitive substring. -/
def specMatchesTerm (term : String) (b : Booking) : Prop :=
  ciContainsSubstring term b.name ∨ ciContainsSubstring term b.phone ∨
    ciContainsSubstring term b.service

instance (term : String) (b : Booking) : Decidable (specMatchesTerm term b) :=
  inferInstanceAs (Decidable (_ ∨ _ ∨ _))

/-- JS `header.split(" ")`: split on every single space character,
keeping empty segments (`"a  b".split(" ")` is `["a","","b"]`, and
`"".split(" ")` is `[""]`). -/
def splitSpaces : List Char → List (List Char)
  | [] => [[]]
  | c :: rest =>
    if c = ' ' then [] :: splitSpaces rest
    else
      match splitSpaces rest with
      | [] => [[c]]
      | w :: ws => (c :: w) :: ws

/-- The token extraction of `verifyToken`: `header.split(" ")[1]`
followed by the JS-falsy check `if (!token)` — an absent segment and an
empty segment are both rejected. -/
def tokenFromHeader (h : String) : Option String :=
  match (splitSpaces h.toList).get? 1 with
  | none => none
  | some t => if t.isEmpty then none else some (String.mk t)

/-- What the auth middleware does with a request: answer an error
response itself, or let the request through to the route handler. -/
inductive AuthOutcome where
  | denied : Response → AuthOutcome
  | proceed : AuthOutcome
deriving Repr, DecidableEq

/-- The `verifyToken` middleware. `verif` is the verdict of the external
`jwt.verify` call on a token string: `true` when the signature checks
out under the server secret and the token is unexpired, `false` when
`jwt.verify` throws. An absent or JS-falsy header gives
401 `"No token provided"`, a header without a usable second segment
gives 401 `"Invalid token format"`, a token that fails verification
gives 403 `"Invalid or expired token"`. -/
def verifyToken (verif : String → Bool) (header : Option String) : AuthOutcome :=
  match header with
  | none => .denied ⟨401, "No token provided"⟩
  | some h =>
    if h = "" then .denied ⟨401, "No token provided"⟩
    else
      match tokenFromHeader h with
      | none => .denied ⟨401, "Invalid token format"⟩
      | some t =>
        if verif t then .proceed
        else .denied ⟨403, "Invalid or expired token"⟩

/-- An admin route behind the middleware: the middleware's error
response when it denies, otherwise the route handler's own response. -/
def withAuth (verif : String → Bool) (header : Option String)
    (handlerResponse : Response) : Response :=
  match verifyToken verif header with
  | .denied r => r
  | .proceed => handlerResponse

/-- What one route handler invocation produces, given whether its
document-store call succeeds: a 200 payload, an error response built by
a local `catch`, or an exception that escapes the handler because the
route has no `try/catch` (Express 4 forwards nothing for a rejected
`async` handler — no 500 JSON is produced). -/
inductive Outcome (α : Type) where
  | payload : α → Outcome α
  | errorResponse : Nat → String → Outcome α
  | uncaught : Outcome α
deriving Repr, DecidableEq

/-- Whether a handler outcome is a JSON response with status 500. -/
def isServerError500 {α : Type} : Outcome α → Bool
  | .errorResponse 500 _ => true
  | _ => false

/-- `GET /api/bookings`: no `try/catch` around `Booking.find`, so a
store failure escapes uncaught. -/
def listActiveHandler (storeOk : Bool) (s : Store) : Outcome (List Booking) :=
  if storeOk then .payload (listActive s) else .uncaught

/-- `GET /api/bookings/:id`: no `try/catch` around `Booking.findById`. -/
def getByIdHandler (storeOk : Bool) (s : Store) (i : Nat) : Outcome (Option Booking) :=
  if storeOk then .payload (getById s i) else .uncaught

/-- `GET /api/dashboard/stats`: the one admin route with a `try/catch`;
a failing count becomes 500 `"Error fetching stats"`. -/
def dashboardStatsHandler (storeOk : Bool) (s : Store) : Outcome Stats :=
  if storeOk then .payload (dashboardStats s)
  else .errorResponse 500 "Error fetching stats"

/-- `GET /api/bookings/search/:term`: no `try/catch`. -/
def searchHandler (storeOk : Bool) (term : String) (s : Store) :
    Outcome (List Booking) :=
  if storeOk then .payload (search term s) else .uncaught

/-- `PUT /api/bookings/:id/complete`: no `try/catch`; on success the
update is applied and the message answered. -/
def markCompletedHandler (storeOk : Bool) (i : Nat) (s : Store) :
    Outcome String × Store :=
  if storeOk then (.payload "Marked as completed", markCompleted i s)
  else (.uncaught, s)

/-- `PUT /api/bookings/:id/archive`: no `try/catch`. -/
def archiveHandler (storeOk : Bool) (i : Nat) (s : Store) :
    Outcome String × Store :=
  if storeOk then (.payload "Archived successfully", archive i s)
  else (.uncaught, s)

/-- `DELETE /api/bookings/:id`: no `try/catch`. -/
def deleteHandler (storeOk : Bool) (i : Nat) (s : Store) :
    Outcome String × Store :=
  if storeOk then (.payload "Deleted successfully", deleteBooking i s)
  else (.uncaught, s)

/-- One exposed operation on the store, for stating store-wide
invariants: the booking-current mutating routes plus the read-only
routes (which leave the store as is). -/
inductive Op where
  | create (eff : CreateEffects) (newId now : Nat) (r : CreateRequest)
  | complete (i : Nat)
  | archiveOp (i : Nat)
  | deleteOp (i : Nat)
  | listOp
  | getOp (i : Nat)
  | searchOp (term : String)
  | statsOp
deriving Repr

/-- The store after one exposed operation. -/
def stepOp (op : Op) (s : Store) : Store :=
  match op with
  | .create eff newId now r => (createBooking eff newId now r s).store
  | .complete i => markCompleted i s
  | .archiveOp i => archive i s
  | .deleteOp i => deleteBooking i s
  | .listOp => s
  | .getOp _ => s
  | .searchOp _ => s
  | .statsOp => s

/-! Concrete data used by witnesses and counterexamples. -/

/-- The spec's own example create request (§8). -/
def demoReq : CreateRequest :=
  ⟨some "Ana", some "a@x.com", some "555", some "Oil Change",
    some "2024-05-01", none⟩

/-- A request missing the email field. -/
def badReq : CreateRequest :=
  ⟨some "Ana", none, some "555", some "Oil Change", some "2024-05-01", none⟩

/-- An active pending booking whose name carries a non-ASCII accent. -/
def bTomas : Booking :=
  ⟨1, "Tomás", "t@x.com", "999", "Brakes", "2024-01-02", none, "Pending",
    false, 5⟩

/-- A pending booking that has been archived. -/
def bArchivedPending : Booking :=
  ⟨7, "Zoe", "z@x.com", "111", "Tires", "2024-02-02", none, "Pending",
    true, 3⟩

/-- A one-character booking: its fields contain no literal dot. -/
def bNoDot : Booking :=
  ⟨2, "7", "n@x.com", "x", "y", "2024-03-03", none, "Pending", false, 9⟩

/-! The claims. -/

/-- C1: a create request with all five required fields present and
non-empty, whose store write and notification sends succeed, persists
exactly one new Booking with status `"Pending"` and `archived = false`,
and responds 201 `"Booking successful"`. -/
theorem create_valid_persists_pending (eff : CreateEffects) (newId now : Nat)
    (r : CreateRequest) (s : Store)
    (hv : requiredPresent r = true) (hs : eff.saveOk = true)
    (hm1 : eff.customerMailOk = true) (hm2 : eff.adminMailOk = true) :
    (createBooking eff newId now r s).response = ⟨201, "Booking successful"⟩ ∧
    (createBooking eff newId now r s).store = s ++ [mkBooking newId now r] ∧
    (mkBooking newId now r).status = "Pending" ∧
    (mkBooking newId now r).archived = false := by
  refine ⟨?_, ?_, rfl, rfl⟩ <;> simp [createBooking, hv, hs, hm1, hm2]

/-- Witness for C1 at the spec's §8 example request. -/
theorem create_valid_persists_pending_witness :
    requiredPresent demoReq = true ∧
    (createBooking ⟨true, true, true⟩ 1 0 demoReq []).response =
      ⟨201, "Booking successful"⟩ ∧
    (createBooking ⟨true, true, true⟩ 1 0 demoReq []).store =
      [] ++ [mkBooking 1 0 demoReq] ∧
    (mkBooking 1 0 demoReq).status = "Pending" ∧
    (mkBooking 1 0 demoReq).archived = false :=
  ⟨by decide,
    create_valid_persists_pending ⟨true, true, true⟩ 1 0 demoReq []
      (by decide) rfl rfl rfl⟩

/-- C2: a create request with some required field missing or empty is
answered 400 before any store write, leaving the store unchanged. -/
theorem create_missing_field_rejected (eff : CreateEffects) (newId now : Nat)
    (r : CreateRequest) (s : Store)
    (hv : requiredPresent r = false) :
    (createBooking eff newId now r s).response =
      ⟨400, "All required fields are required"⟩ ∧
    (createBooking eff newId now r s).store = s := by
  constructor <;> simp [createBooking, hv]

/-- Witness for C2 at a request missing the email field. -/
theorem create_missing_field_rejected_witness :
    requiredPresent badReq = false ∧
    (createBooking ⟨true, true, true⟩ 1 0 badReq [bTomas]).response =
      ⟨400, "All required fields are required"⟩ ∧
    (createBooking ⟨true, true, true⟩ 1 0 badReq [bTomas]).store = [bTomas] :=
  ⟨by decide,
    create_missing_field_rejected ⟨true, true, true⟩ 1 0 badReq [bTomas]
      (by decide)⟩

/-- C4 counterexample: with a successful save and a failing customer
mail send, the booking is persisted but the response is the generic 500,
not the 201 success the claim asserts. -/
theorem create_mail_failure_not_success_cex :
    (createBooking ⟨true, false, true⟩ 1 0 demoReq []).store =
      [mkBooking 1 0 demoReq] ∧
    (createBooking ⟨true, false, true⟩ 1 0 demoReq []).response.code = 500 ∧
    (createBooking ⟨true, false, true⟩ 1 0 demoReq []).response.code ≠ 201 := by
  decide

/-- C4 amended: after a successful save, a failure of either
notification send does not roll back the persisted Booking — the record
remains — but the create does not report success: it answers the
generic 500 `"Server error"`. -/
theorem create_mail_failure_persists_but_500 (eff : CreateEffects)
    (newId now : Nat) (r : CreateRequest) (s : Store)
    (hv : requiredPresent r = true) (hs : eff.saveOk = true)
    (hm : eff.customerMailOk = false ∨ eff.adminMailOk = false) :
    (createBooking eff newId now r s).store = s ++ [mkBooking newId now r] ∧
    (createBooking eff newId now r s).response = ⟨500, "Server error"⟩ := by
  rcases hm with hm | hm
  · constructor <;> simp [createBooking, hv, hs, hm]
  · cases hcm : eff.customerMailOk <;>
      constructor <;> simp [createBooking, hv, hs, hm, hcm]

/-- Witness for the amended C4: failing admin mail send. -/
theorem create_mail_failure_persists_but_500_witness :
    requiredPresent demoReq = true ∧
    (createBooking ⟨true, true, false⟩ 1 0 demoReq []).store =
      [] ++ [mkBooking 1 0 demoReq] ∧
    (createBooking ⟨true, true, false⟩ 1 0 demoReq []).response =
      ⟨500, "Server error"⟩ :=
  ⟨by decide,
    create_mail_failure_persists_but_500 ⟨true, true, false⟩ 1 0 demoReq []
      (by decide) rfl (Or.inr rfl)⟩

/-- C7: the auth gate on an admin route. No Authorization header gives
401; a header whose split yields no usable token segment gives 401; a
token the verifier rejects gives 403; a token the verifier accepts lets
the route handler answer its own response. -/
theorem auth_gate_responses (verif : String → Bool) (resp : Response) :
    withAuth verif none resp = ⟨401, "No token provided"⟩ ∧
    (∀ h, tokenFromHeader h = none →
      (withAuth verif (some h) resp).code = 401) ∧
    (∀ h t, tokenFromHeader h = some t → verif t = false →
      withAuth verif (some h) resp = ⟨403, "Invalid or expired token"⟩) ∧
    (∀ h t, tokenFromHeader h = some t → verif t = true →
      withAuth verif (some h) resp = resp) := by
  refine ⟨rfl, ?_, ?_, ?_⟩
  · intro h ht
    by_cases he : h = "" <;> simp [withAuth, verifyToken, he, ht]
  · intro h t ht hv
    have he : ¬ h = "" := by
      intro he; rw [he] at ht; exact Option.noConfusion ht
    simp [withAuth, verifyToken, he, ht, hv]
  · intro h t ht hv
    have he : ¬ h = "" := by
      intro he; rw [he] at ht; exact Option.noConfusion ht
    simp [withAuth, verifyToken, he, ht, hv]

/-- Witness for C7: a verifier accepting exactly the token `"tok"`, a
missing header, the malformed header `"Bearer"`, a bad token, and a
good token. -/
theorem auth_gate_responses_witness :
    withAuth (fun t => t == "tok") none ⟨200, "ok"⟩ =
      ⟨401, "No token provided"⟩ ∧
    tokenFromHeader "Bearer" = none ∧
    (withAuth (fun t => t == "tok") (some "Bearer") ⟨200, "ok"⟩).code = 401 ∧
    tokenFromHeader "Bearer bad" = some "bad" ∧
    withAuth (fun t => t == "tok") (some "Bearer bad") ⟨200, "ok"⟩ =
      ⟨403, "Invalid or expired token"⟩ ∧
    tokenFromHeader "Bearer tok" = some "tok" ∧
    withAuth (fun t => t == "tok") (some "Bearer tok") ⟨200, "ok"⟩ =
      ⟨200, "ok"⟩ :=
  ⟨(auth_gate_responses (fun t => t == "tok") ⟨200, "ok"⟩).1,
    by decide,
    (auth_gate_responses (fun t => t == "tok") ⟨200, "ok"⟩).2.1 "Bearer"
      (by decide),
    by decide,
    (auth_gate_responses (fun t => t == "tok") ⟨200, "ok"⟩).2.2.1 "Bearer bad"
      "bad" (by decide) (by decide),
    by decide,
    (auth_gate_responses (fun t => t == "tok") ⟨200, "ok"⟩).2.2.2 "Bearer tok"
      "tok" (by decide) (by decide)⟩

/-- C8 counterexample: a document-store failure in the list route is not
converted to a 500 JSON response — the exception escapes the handler,
which has no `try/catch`. -/
theorem list_store_failure_uncaught_cex :
    listActiveHandler false [] = Outcome.uncaught ∧
    isServerError500 (listActiveHandler false []) = false := by
  decide

/-- C8 amended: only the create route and the dashboard-stats route
catch store failures locally and convert them to a 500 JSON response;
the list, get-by-id, search, mark-complete, archive, and delete routes
have no local catch, so a store failure escapes them uncaught. -/
theorem route_failure_conversion :
    (∀ (m1 m2 : Bool) (newId now : Nat) (r : CreateRequest) (s : Store),
      requiredPresent r = true →
      (createBooking ⟨false, m1, m2⟩ newId now r s).response =
        ⟨500, "Server error"⟩) ∧
    (∀ s : Store,
      dashboardStatsHandler false s =
        Outcome.errorResponse 500 "Error fetching stats") ∧
    (∀ s : Store, listActiveHandler false s = Outcome.uncaught) ∧
    (∀ (s : Store) (i : Nat), getByIdHandler false s i = Outcome.uncaught) ∧
    (∀ (s : Store) (t : String),
      searchHandler false t s = Outcome.uncaught) ∧
    (∀ (s : Store) (i : Nat),
      markCompletedHandler false i s = (Outcome.uncaught, s)) ∧
    (∀ (s : Store) (i : Nat),
      archiveHandler false i s = (Outcome.uncaught, s)) ∧
    (∀ (s : Store) (i : Nat),
      deleteHandler false i s = (Outcome.uncaught, s)) := by
  refine ⟨?_, fun s => rfl, fun s => rfl, fun s i => rfl, fun s t => rfl,
    fun s i => rfl, fun s i => rfl, fun s i => rfl⟩
  intro m1 m2 newId now r s hv
  simp [createBooking, hv]

/-- Witness for the amended C8 at concrete stores. -/
theorem route_failure_conversion_witness :
    requiredPresent demoReq = true ∧
    (createBooking ⟨false, true, true⟩ 1 0 demoReq []).response =
      ⟨500, "Server error"⟩ ∧
    dashboardStatsHandler false [bTomas] =
      Outcome.errorResponse 500 "Error fetching stats" ∧
    listActiveHandler false [bTomas] = Outcome.uncaught ∧
    getByIdHandler false [bTomas] 1 = Outcome.uncaught ∧
    searchHandler false "tom" [bTomas] = Outcome.uncaught ∧
    markCompletedHandler false 1 [bTomas] = (Outcome.uncaught, [bTomas]) ∧
    archiveHandler false 1 [bTomas] = (Outcome.uncaught, [bTomas]) ∧
    deleteHandler false 1 [bTomas] = (Outcome.uncaught, [bTomas]) :=
  ⟨by decide,
    route_failure_conversion.1 true true 1 0 demoReq [] (by decide),
    route_failure_conversion.2.1 [bTomas],
    route_failure_conversion.2.2.1 [bTomas],
    route_failure_conversion.2.2.2.1 [bTomas] 1,
    route_failure_conversion.2.2.2.2.1 [bTomas] "tom",
    route_failure_conversion.2.2.2.2.2.1 [bTomas] 1,
    route_failure_conversion.2.2.2.2.2.2.1 [bTomas] 1,
    route_failure_conversion.2.2.2.2.2.2.2 [bTomas] 1⟩

/-- C3: the list route returns exactly the non-archived bookings — a
permutation of the `archived = false` filter of the store — ordered by
creation time descending, and never an archived record. -/
theorem listActive_exactly_active_sorted (s : Store) :
    List.Perm (listActive s) (s.filter fun b => !b.archived) ∧
    List.Pairwise newerFirst (listActive s) ∧
    ∀ b ∈ listActive s, b.archived = false := by
  refine ⟨List.perm_insertionSort newerFirst _,
    List.sorted_insertionSort newerFirst _, ?_⟩
  intro b hb
  have hmem : b ∈ s.filter (fun b => !b.archived) :=
    (List.perm_insertionSort newerFirst _).mem_iff.mp hb
  simpa using List.of_mem_filter hmem

/-- Witness for C3 at a two-element store holding one archived and one
active booking. -/
theorem listActive_exactly_active_sorted_witness :
    List.Perm (listActive [bArchivedPending, bTomas])
      (List.filter (fun b => !b.archived) [bArchivedPending, bTomas]) ∧
    List.Pairwise newerFirst (listActive [bArchivedPending, bTomas]) ∧
    ∀ b ∈ listActive [bArchivedPending, bTomas], b.archived = false :=
  listActive_exactly_active_sorted [bArchivedPending, bTomas]

/-- C5 counterexample: marking an *archived* Pending booking completed
changes neither the completed nor the pending count — both stats filters
require `archived: false`, so the claim fails without a non-archived
hypothesis. -/
theorem markCompleted_archived_stats_cex :
    bArchivedPending.status = "Pending" ∧
    (dashboardStats (markCompleted 7 [bArchivedPending])).completed =
      (dashboardStats [bArchivedPending]).completed ∧
    (dashboardStats (markCompleted 7 [bArchivedPending])).completed ≠
      (dashboardStats [bArchivedPending]).completed + 1 ∧
    (dashboardStats [bArchivedPending]).pending =
      (dashboardStats (markCompleted 7 [bArchivedPending])).pending := by
  decide

/-- C5 amended: after `markCompleted(id)` on the unique Booking with
that id, when that Booking was Pending *and not archived*, the completed
count increases by exactly one, the pending count decreases by exactly
one, and the total stays unchanged. -/
theorem markCompleted_stats_shift (i : Nat) (s : Store)
    (huniq : s.countP (fun b => b.id == i) = 1)
    (hb : ∀ b ∈ s, b.id = i → b.status = "Pending" ∧ b.archived = false) :
    (dashboardStats (markCompleted i s)).completed =
      (dashboardStats s).completed + 1 ∧
    (dashboardStats s).pending =
      (dashboardStats (markCompleted i s)).pending + 1 ∧
    (dashboardStats (markCompleted i s)).total = (dashboardStats s).total := by
  induction s with
  | nil => simp at huniq
  | cons a s ih =>
    rw [List.countP_cons] at huniq
    by_cases hai : a.id = i
    · simp only [hai, beq_self_eq_true, if_pos] at huniq
      have hzero : s.countP (fun b => b.id == i) = 0 := by omega
      have hnone : ∀ b ∈ s, ¬ ((b.id == i) = true) :=
        List.countP_eq_zero.mp hzero
      have hpt : ∀ b ∈ s,
          (if b.id = i then { b with status := "Completed" } else b) = id b :=
        fun b hb2 => if_neg (fun h => hnone b hb2 (by simp [h]))
      have hmap : (s.map fun b =>
          if b.id = i then { b with status := "Completed" } else b) = s := by
        rw [List.map_congr_left hpt, List.map_id]
      obtain ⟨hstat, harch⟩ := hb a (List.mem_cons_self a s) hai
      refine ⟨?_, ?_, ?_⟩ <;>
        simp [dashboardStats, markCompleted, hmap, List.countP_cons, hai,
          hstat, harch]
    · have hone : (a.id == i) = false := by simp [hai]
      simp only [hone, Bool.false_eq_true, if_neg, Nat.add_zero,
        if_false] at huniq
      have hb' : ∀ b ∈ s, b.id = i →
          b.status = "Pending" ∧ b.archived = false :=
        fun b hb2 => hb b (List.mem_cons_of_mem a hb2)
      obtain ⟨h1, h2, h3⟩ := ih huniq hb'
      simp only [dashboardStats, markCompleted] at h1 h2 h3 ⊢
      refine ⟨?_, ?_, ?_⟩ <;>
        · simp only [List.map_cons, List.countP_cons, if_neg hai]
          omega

/-- Witness for the amended C5: a store with one active Pending booking
and one unrelated archived booking. -/
theorem markCompleted_stats_shift_witness :
    List.countP (fun b => b.id == 1) [bTomas, bArchivedPending] = 1 ∧
    (dashboardStats (markCompleted 1 [bTomas, bArchivedPending])).completed =
      (dashboardStats [bTomas, bArchivedPending]).completed + 1 ∧
    (dashboardStats [bTomas, bArchivedPending]).pending =
      (dashboardStats (markCompleted 1 [bTomas, bArchivedPending])).pending + 1 ∧
    (dashboardStats (markCompleted 1 [bTomas, bArchivedPending])).total =
      (dashboardStats [bTomas, bArchivedPending]).total :=
  ⟨by decide,
    markCompleted_stats_shift 1 [bTomas, bArchivedPending] (by decide)
      (by decide)⟩

/-- Characters with a special meaning in a PCRE pattern. A term made of
other characters is taken literally by `$regex`. -/
def regexMeta : List Char :=
  ['.', '\\', '*', '+', '?', '(', ')', '[', ']', '\x7b', '\x7d', '|',
    '^', '$']

/-- A pattern without metacharacters reads as a sequence of literals. -/
theorem tokenize_plain (l : List Char) (h : ∀ c ∈ l, c ∉ regexMeta) :
    tokenize l = l.map RToken.lit := by
  induction l with
  | nil => rfl
  | cons c rest ih =>
    have hc := h c (List.mem_cons_self c rest)
    have h1 : ¬ c = '\\' := fun he => hc (by simp [regexMeta, he])
    have h2 : ¬ c = '.' := fun he => hc (by simp [regexMeta, he])
    rw [tokenize.eq_def]
    simp only [if_neg h1, if_neg h2,
      ih (fun d hd => h d (List.mem_cons_of_mem c hd)), List.map_cons]

/-- Anchored matching of a literal-only pattern is case-insensitive
prefix comparison. -/
theorem matchHere_lits (tpl : List Char) : ∀ xs : List Char,
    matchHere (tpl.map RToken.lit) xs = true ↔
      (tpl.map Char.toLower) <+: (xs.map Char.toLower) := by
  induction tpl with
  | nil => intro xs; simp [matchHere]
  | cons c tpl ih =>
    intro xs
    cases xs with
    | nil => simp [matchHere]
    | cons x xs => simp [matchHere, ih, List.cons_prefix_cons]

/-- Unanchored matching of a literal-only pattern is case-insensitive
substring containment. -/
theorem searchFrom_lits (tpl : List Char) : ∀ xs : List Char,
    searchFrom (tpl.map RToken.lit) xs = true ↔
      (tpl.map Char.toLower) <:+: (xs.map Char.toLower) := by
  intro xs
  induction xs with
  | nil =>
    simp [searchFrom, matchHere_lits]
  | cons x xs ih =>
    simp [searchFrom, matchHere_lits, ih, List.infix_cons_iff]

/-- On metacharacter-free terms the code's regex test coincides with the
spec's case-insensitive substring containment. -/
theorem ciRegexTest_plain (term subject : String)
    (h : ∀ c ∈ term.toList, c ∉ regexMeta) :
    ciRegexTest term subject = true ↔ ciContainsSubstring term subject := by
  rw [ciRegexTest, tokenize_plain term.toList h, searchFrom_lits]
  exact Iff.rfl

/-- C6 counterexample: the term is passed to `$regex` as a pattern, so
searching `"."` returns a booking none of whose searched fields contains
a literal dot — search is not substring containment for every term. -/
theorem search_dot_regex_cex :
    search "." [bNoDot] = [bNoDot] ∧ ¬ specMatchesTerm "." bNoDot := by
  decide

/-- C6 amended: for every term free of regex metacharacters, search
returns exactly the active bookings where name, phone, or service
case-insensitively contains the term as a substring (and searching
`"tom"` does match a booking named `"Tomás"`). -/
theorem search_plain_term_substring (term : String) (s : Store)
    (h : ∀ c ∈ term.toList, c ∉ regexMeta) :
    ∀ b, b ∈ search term s ↔
      b ∈ s ∧ b.archived = false ∧ specMatchesTerm term b := by
  intro b
  rw [search, List.mem_filter]
  constructor
  · rintro ⟨hmem, hcond⟩
    simp only [Bool.and_eq_true, Bool.not_eq_true', Bool.or_eq_true] at hcond
    obtain ⟨harch, hmatch⟩ := hcond
    refine ⟨hmem, harch, ?_⟩
    rw [matchesTerm] at hmatch
    simp only [Bool.or_eq_true] at hmatch
    rcases hmatch with (hm | hm) | hm
    · exact Or.inl ((ciRegexTest_plain term b.name h).mp hm)
    · exact Or.inr (Or.inl ((ciRegexTest_plain term b.phone h).mp hm))
    · exact Or.inr (Or.inr ((ciRegexTest_plain term b.service h).mp hm))
  · rintro ⟨hmem, harch, hspec⟩
    refine ⟨hmem, ?_⟩
    simp only [Bool.and_eq_true, Bool.not_eq_true', Bool.or_eq_true]
    refine ⟨harch, ?_⟩
    rw [matchesTerm]
    simp only [Bool.or_eq_true]
    rcases hspec with hm | hm | hm
    · exact Or.inl (Or.inl ((ciRegexTest_plain term b.name h).mpr hm))
    · exact Or.inl (Or.inr ((ciRegexTest_plain term b.phone h).mpr hm))
    · exact Or.inr ((ciRegexTest_plain term b.service h).mpr hm)

/-- Witness for the amended C6: searching `"tom"` in a store with an
archived booking and an active booking named `"Tomás"` selects exactly
the latter. -/
theorem search_plain_term_substring_witness :
    (∀ c ∈ "tom".toList, c ∉ regexMeta) ∧
    (bTomas ∈ search "tom" [bArchivedPending, bTomas] ↔
      bTomas ∈ [bArchivedPending, bTomas] ∧ bTomas.archived = false ∧
        specMatchesTerm "tom" bTomas) ∧
    bTomas ∈ search "tom" [bArchivedPending, bTomas] :=
  ⟨by decide,
    search_plain_term_substring "tom" [bArchivedPending, bTomas] (by decide)
      bTomas,
    by decide⟩

/-- Filtering by a predicate implied by the search predicate does not
change the first match. -/
theorem find_filter_of_imp {α : Type} (p q : α → Bool) (l : List α)
    (h : ∀ a, p a = true → q a = true) :
    (l.filter q).find? p = l.find? p := by
  induction l with
  | nil => rfl
  | cons a l ih =>
    by_cases hq : q a = true
    · rw [List.filter_cons_of_pos hq]
      cases hp : p a
      · rw [List.find?_cons_of_neg _ (by simp [hp]),
          List.find?_cons_of_neg _ (by simp [hp]), ih]
      · rw [List.find?_cons_of_pos _ hp, List.find?_cons_of_pos _ hp]
    · have hp : p a = false := by
        cases hpa : p a
        · rfl
        · exact absurd (h a hpa) hq
      rw [List.filter_cons_of_neg hq, ih,
        List.find?_cons_of_neg _ (by simp [hp])]

/-- When the filter removes every element the search predicate accepts,
the filtered list has no match. -/
theorem find_filter_none {α : Type} (p q : α → Bool) (l : List α)
    (h : ∀ a, p a = true → q a = false) :
    (l.filter q).find? p = none := by
  induction l with
  | nil => rfl
  | cons a l ih =>
    by_cases hq : q a = true
    · have hp : p a = false := by
        cases hpa : p a
        · rfl
        · rw [h a hpa] at hq; exact absurd hq (by simp)
      rw [List.filter_cons_of_pos hq,
        List.find?_cons_of_neg _ (by simp [hp]), ih]
    · rw [List.filter_cons_of_neg hq, ih]

/-- A by-id update commutes with by-id lookup: the first match in the
updated store is the updated first match, because the update preserves
every identity. -/
theorem find_map_update (i j : Nat) (g : Booking → Booking)
    (hg : ∀ b, (g b).id = b.id) (s : Store) :
    ((s.map fun b => if b.id = i then g b else b).find? fun b => b.id == j) =
      ((s.find? fun b => b.id == j).map fun b =>
        if b.id = i then g b else b) := by
  induction s with
  | nil => rfl
  | cons a s ih =>
    have hid : (if a.id = i then g a else a).id = a.id := by
      split
      · exact hg a
      · rfl
    cases hp : (a.id == j) with
    | false =>
      simp only [List.map_cons, List.find?_cons, hid, hp]
      exact ih
    | true =>
      simp only [List.map_cons, List.find?_cons, hid, hp, Option.map_some']


/-- The create handler either leaves the store unchanged or appends the
one new document. -/
theorem createBooking_store_cases (eff : CreateEffects) (newId now : Nat)
    (r : CreateRequest) (s : Store) :
    (createBooking eff newId now r s).store = s ∨
    (createBooking eff newId now r s).store = s ++ [mkBooking newId now r] := by
  unfold createBooking
  split
  · exact Or.inl rfl
  · split
    · exact Or.inl rfl
    · split
      · exact Or.inr rfl
      · split
        · exact Or.inr rfl
        · exact Or.inr rfl

/-- C9: the archived flag is monotonic. A created booking has
`archived = false`; any booking in the store after a create was already
there or is the new non-archived one; `markCompleted` preserves every
booking's archived flag; and for every exposed operation, if the lookup
of an id gave an archived booking before, any successful lookup of that
id afterwards still gives an archived booking. -/
theorem archived_monotonic :
    (∀ (newId now : Nat) (r : CreateRequest),
      (mkBooking newId now r).archived = false) ∧
    (∀ (eff : CreateEffects) (newId now : Nat) (r : CreateRequest)
        (s : Store) (b : Booking),
      b ∈ (createBooking eff newId now r s).store →
        b ∈ s ∨ b.archived = false) ∧
    (∀ (i : Nat) (s : Store),
      List.Forall₂ (fun b b' => b'.archived = b.archived) s
        (markCompleted i s)) ∧
    (∀ (op : Op) (s : Store) (i : Nat) (b b' : Booking),
      getById s i = some b → b.archived = true →
        getById (stepOp op s) i = some b' → b'.archived = true) := by
  refine ⟨fun _ _ _ => rfl, ?_, ?_, ?_⟩
  · intro eff newId now r s b hb
    rcases createBooking_store_cases eff newId now r s with hst | hst
    · rw [hst] at hb; exact Or.inl hb
    · rw [hst] at hb
      rcases List.mem_append.mp hb with h | h
      · exact Or.inl h
      · right
        have hbm : b = mkBooking newId now r := by simpa using h
        rw [hbm]; rfl
  · intro i s
    refine List.forall₂_map_right_iff.mpr (List.forall₂_same.mpr ?_)
    intro b _
    split <;> rfl
  · intro op s i b b' hfind harch hfind'
    cases op with
    | create eff newId now r =>
      simp only [stepOp] at hfind'
      rcases createBooking_store_cases eff newId now r s with hst | hst
      · rw [hst, hfind] at hfind'
        rw [(Option.some.inj hfind').symm]; exact harch
      · rw [hst] at hfind'
        rw [getById] at hfind hfind'
        rw [List.find?_append, hfind] at hfind'
        have hbb : b = b' := Option.some.inj (by simpa using hfind')
        rw [← hbb]; exact harch
    | complete j =>
      simp only [stepOp, markCompleted] at hfind'
      rw [getById] at hfind hfind'
      rw [find_map_update j i (fun b => { b with status := "Completed" })
        (fun _ => rfl) s, hfind] at hfind'
      have hbb : b' = if b.id = j then { b with status := "Completed" }
          else b := (Option.some.inj (by simpa using hfind')).symm
      rw [hbb]
      split <;> exact harch
    | archiveOp j =>
      simp only [stepOp, archive] at hfind'
      rw [getById] at hfind hfind'
      rw [find_map_update j i (fun b => { b with archived := true })
        (fun _ => rfl) s, hfind] at hfind'
      have hbb : b' = if b.id = j then { b with archived := true }
          else b := (Option.some.inj (by simpa using hfind')).symm
      rw [hbb]
      split
      · rfl
      · exact harch
    | deleteOp j =>
      simp only [stepOp, deleteBooking] at hfind'
      by_cases hji : j = i
      · subst hji
        rw [getById] at hfind'
        rw [find_filter_none (fun b => b.id == j) (fun b => !(b.id == j)) s
          (fun a ha => by simp [ha])] at hfind'
        exact Option.noConfusion hfind'
      · rw [getById] at hfind hfind'
        rw [find_filter_of_imp (fun b => b.id == i) (fun b => !(b.id == j)) s
          (fun a ha => by
            simp only [beq_iff_eq] at ha
            simpa [ha] using Ne.symm hji)] at hfind'
        rw [hfind] at hfind'
        rw [(Option.some.inj hfind').symm]; exact harch
    | listOp =>
      rw [stepOp] at hfind'
      rw [hfind] at hfind'
      rw [(Option.some.inj hfind').symm]; exact harch
    | getOp k =>
      rw [stepOp] at hfind'
      rw [hfind] at hfind'
      rw [(Option.some.inj hfind').symm]; exact harch
    | searchOp t =>
      rw [stepOp] at hfind'
      rw [hfind] at hfind'
      rw [(Option.some.inj hfind').symm]; exact harch
    | statsOp =>
      rw [stepOp] at hfind'
      rw [hfind] at hfind'
      rw [(Option.some.inj hfind').symm]; exact harch

/-- Witness for C9: completing an archived booking leaves it archived. -/
theorem archived_monotonic_witness :
    getById [bArchivedPending] 7 = some bArchivedPending ∧
    bArchivedPending.archived = true ∧
    getById (stepOp (Op.complete 7) [bArchivedPending]) 7 =
      some { bArchivedPending with status := "Completed" } ∧
    ({ bArchivedPending with status := "Completed" } : Booking).archived =
      true :=
  ⟨by decide, by decide, by decide,
    archived_monotonic.2.2.2 (Op.complete 7) [bArchivedPending] 7
      bArchivedPending { bArchivedPending with status := "Completed" }
      (by decide) (by decide) (by decide)⟩

/-- C10: each single-field admin update is frame-exact. `markCompleted`
rewrites only the status of the booking with the matching id (to
`"Completed"`) and copies every other field of every booking; `archive`
rewrites only the archived flag of the matching booking (to `true`) and
copies everything else — so completing never un-archives and archiving
never resets status. -/
theorem update_frame_effects (i : Nat) (s : Store) :
    List.Forall₂ (fun b b2 =>
      b2.id = b.id ∧ b2.name = b.name ∧ b2.email = b.email ∧
      b2.phone = b.phone ∧ b2.service = b.service ∧ b2.date = b.date ∧
      b2.message = b.message ∧ b2.archived = b.archived ∧
      b2.createdAt = b.createdAt ∧
      b2.status = (if b.id = i then "Completed" else b.status)) s
      (markCompleted i s) ∧
    List.Forall₂ (fun b b2 =>
      b2.id = b.id ∧ b2.name = b.name ∧ b2.email = b.email ∧
      b2.phone = b.phone ∧ b2.service = b.service ∧ b2.date = b.date ∧
      b2.message = b.message ∧ b2.status = b.status ∧
      b2.createdAt = b.createdAt ∧
      b2.archived = (if b.id = i then true else b.archived)) s
      (archive i s) := by
  constructor <;>
  · refine List.forall₂_map_right_iff.mpr (List.forall₂_same.mpr ?_)
    intro b _
    by_cases h : b.id = i <;> simp [h]

end NovasAuto
